import Mathlib

/-!
Shallow embedding of the graph-rag-assistant frontend (React components
`App`/`FileUpload` in part_000, `QuestionForm.jsx`, `ResultsDisplay.jsx`
with `StatsPanel`).  JavaScript strings are modelled as Lean `String`
(sequences of characters), JSON numbers used as counts as `Nat`, the
similarity score as `ℚ`.  Fields that JavaScript leaves `undefined` and
only ever tests for truthiness are modelled as `Option` or, for string
fields, as the empty string.  Callback invocations (`onUploadStatus`,
`onStatsUpdate`, `onResults`, `onLoading`) are modelled as explicit event
lists in the order the code issues them.
-/

namespace GraphRag

/-- Payload of a successful `POST /upload` response:
`{ title, chunks_processed, authors }`. -/
structure UploadResponse where
  title : String
  chunks_processed : Nat
  authors : List String
deriving Repr, DecidableEq

/-- Payload of `GET /stats`:
`{ papers_processed, chunks_processed, vectorizer_fitted }`. -/
structure Stats where
  papers_processed : Nat
  chunks_processed : Nat
  vectorizer_fitted : Bool
deriving Repr, DecidableEq

/-- The axios error as `handleFileUpload`'s catch branch reads it:
`error.response?.data?.detail` and `error.response?.status`.  `none`
models an absent (`undefined`) field. -/
structure UploadError where
  detail : Option String
  status : Option Nat
deriving Repr, DecidableEq

/-- The status object passed to `onUploadStatus`.  The `details` field is
absent on the loading status; an absent field is modelled as `""`, which
is JavaScript-falsy exactly like `undefined` wherever the code tests it. -/
structure UploadStatus where
  type : String
  message : String
  details : String
deriving Repr, DecidableEq

/-- One entry of `vector_context`: `{ paper_id, text, similarity }`. -/
structure VectorEntry where
  paper_id : String
  text : String
  similarity : ℚ
deriving Repr, DecidableEq

/-- The `data` object of a `graph_context` entry.  Papers use `id`,
`title`, `authors`; relationships use `from` and `to` (here
`from_` and `to_`, since both are reserved in Lean) and `type`.  Unused
fields of the other kind are simply never read. -/
structure GraphData where
  id : String := ""
  title : String := ""
  authors : Option (List String) := none
  from_ : String := ""
  to_ : String := ""
  type : String := ""
deriving Repr, DecidableEq

/-- One entry of `graph_context`: `{ type: "paper"|"relationship", data }`. -/
structure GraphEntry where
  type : String
  data : GraphData
deriving Repr, DecidableEq

/-- The `POST /ask` response payload:
`{ answer, vector_context, graph_context }`. -/
structure Results where
  answer : String
  vector_context : List VectorEntry
  graph_context : List GraphEntry
deriving Repr, DecidableEq

/-! ## ResultsDisplay: passage truncation (renderVectorContext) -/

/-- The passage text rendered for one vector-context entry:
`result.text.length > 400 ? result.text.slice(0, 400) + '...' : result.text`. -/
def truncateText (t : String) : String :=
  if t.length > 400 then t.take 400 ++ "..." else t

/-! ## FileUpload: handleFileUpload, handleDrop, handleFileSelect -/

/-- Outcome of the backend interaction as `handleFileUpload` observes it:
either the `POST /upload` resolves with a response payload (and then the
inner `GET /stats` either resolves with a `Stats` payload or rejects), or
the `POST /upload` rejects with an error. -/
inductive UploadResult where
  | ok (resp : UploadResponse) (statsResult : Except Unit Stats)
  | err (e : UploadError)
deriving Repr

/-- Observable effects of `handleFileUpload`, in program order:
`onUploadStatus` calls, the issuing of the `GET /stats` request, and
`onStatsUpdate` calls. -/
inductive Event where
  | statusUpdate (s : UploadStatus)
  | statsRequest
  | statsUpdate (st : Stats)
deriving Repr, DecidableEq

/-- The first status `handleFileUpload` reports:
`{ type: 'loading', message: 'Uploading and processing PDF...' }`. -/
def loadingStatus : UploadStatus :=
  { type := "loading"
  , message := "Uploading and processing PDF..."
  , details := "" }

/-- The status reported after a successful upload:
`{ type: 'success', message: ` ``Processed: ${title}`` `,
   details: ` ``${chunks_processed} chunks • ${authors.join(', ')}`` ` }`. -/
def successStatus (resp : UploadResponse) : UploadStatus :=
  { type := "success"
  , message := "Processed: " ++ resp.title
  , details :=
      toString resp.chunks_processed ++ " chunks • "
        ++ String.intercalate ", " resp.authors }

/-- The status reported from the catch branch:
`message: error.response?.data?.detail || 'Upload failed. Please try again.'`
and
`details: error.response?.status ? ` ``Status: ${status}`` ` : ''`.
JavaScript truthiness is modelled exactly: an empty-string `detail` and a
zero `status` are falsy. -/
def errorStatus (e : UploadError) : UploadStatus :=
  { type := "error"
  , message :=
      match e.detail with
      | some d => if d = "" then "Upload failed. Please try again." else d
      | none => "Upload failed. Please try again."
  , details :=
      match e.status with
      | some s => if s = 0 then "" else "Status: " ++ toString s
      | none => "" }

/-- Effects of one `handleFileUpload(file)` call, as a function of the
backend outcome: status `loading` first; on success the `success` status,
then the `GET /stats` request and, if it resolves, `onStatsUpdate` with
its payload (a rejection is only logged); on failure the `error` status
and no stats traffic. -/
def handleFileUpload (result : UploadResult) : List Event :=
  Event.statusUpdate loadingStatus ::
    match result with
    | .ok resp statsResult =>
        Event.statusUpdate (successStatus resp) ::
          Event.statsRequest ::
            (match statsResult with
             | .ok st => [Event.statsUpdate st]
             | .error _ => [])
    | .err e => [Event.statusUpdate (errorStatus e)]

/-- A browser `File` as the handlers read it: only its MIME `type` (and a
name, irrelevant to the logic) are consulted. -/
structure DOMFile where
  name : String
  type : String
deriving Repr, DecidableEq

/-- The file `handleDrop` forwards to `handleFileUpload`, if any:
`files.length > 0 && files[0].type === 'application/pdf'`. -/
def handleDrop (files : List DOMFile) : Option DOMFile :=
  match files with
  | f :: _ => if f.type = "application/pdf" then some f else none
  | [] => none

/-- The file `handleFileSelect` forwards to `handleFileUpload`, if any:
`const file = e.target.files[0]; if (file && file.type === 'application/pdf')`. -/
def handleFileSelect (files : List DOMFile) : Option DOMFile :=
  match files.head? with
  | some f => if f.type = "application/pdf" then some f else none
  | none => none

/-- Effects of a drop event: `handleFileUpload` runs only when
`handleDrop` accepts a file; otherwise nothing happens. -/
def dropEvents (files : List DOMFile) (result : UploadResult) : List Event :=
  match handleDrop files with
  | some _ => handleFileUpload result
  | none => []

/-- Effects of a file-picker change event, analogously. -/
def selectEvents (files : List DOMFile) (result : UploadResult) : List Event :=
  match handleFileSelect files with
  | some _ => handleFileUpload result
  | none => []

/-- The upload status visible after a list of effects has run, starting
from `prev` (each `onUploadStatus` call overwrites it). -/
def lastStatus (prev : Option UploadStatus) (evs : List Event) :
    Option UploadStatus :=
  evs.foldl
    (fun acc ev =>
      match ev with
      | .statusUpdate s => some s
      | _ => acc)
    prev

/-- The stats value visible after a list of effects has run, starting
from `prev` (each `onStatsUpdate` call overwrites it). -/
def lastStats (prev : Option Stats) (evs : List Event) : Option Stats :=
  evs.foldl
    (fun acc ev =>
      match ev with
      | .statsUpdate st => some st
      | _ => acc)
    prev

/-! ## QuestionForm: submit gating and handleSubmit -/

/-- JavaScript `String.prototype.trim`, as `question.trim()` uses it:
drops leading and trailing whitespace characters.  (Lean's own
`String.trim` is extensionally the same but is defined by well-founded
recursion on byte positions, so this structurally recursive model is
used to keep concrete evaluation possible.) -/
def trim (s : String) : String :=
  ⟨((s.data.dropWhile Char.isWhitespace).reverse.dropWhile
      Char.isWhitespace).reverse⟩

/-- The `disabled` attribute of the submit button:
`!question.trim() || !uploadStatus || uploadStatus.type !== 'success'`.
`uploadStatus` is `null` initially, modelled as `none`. -/
def submitDisabled (question : String) (uploadStatus : Option UploadStatus) :
    Bool :=
  trim question = "" ||
    match uploadStatus with
    | none => true
    | some s => s.type != "success"

/-- The `disabled` attribute of the question textarea:
`!uploadStatus || uploadStatus.type === 'loading'`. -/
def textareaDisabled (uploadStatus : Option UploadStatus) : Bool :=
  match uploadStatus with
  | none => true
  | some s => s.type == "loading"

/-- Outcome of the backend interaction as `handleSubmit` observes it:
the `POST /ask` resolves with a `Results` payload or rejects with an
error carrying `error.response?.data?.detail`. -/
inductive AskResult where
  | ok (data : Results)
  | err (detail : Option String)
deriving Repr, DecidableEq

/-- Observable effects of one `handleSubmit` call: the questions posted
to `/ask`, the `onLoading` calls, the `onResults` calls and the `alert`
messages, each in program order. -/
structure AskOutcome where
  requests : List String
  loadingCalls : List Bool
  resultsCalls : List Results
  alerts : List String
deriving Repr, DecidableEq

/-- Effects of `handleSubmit`: `if (!question.trim()) return;` else
`onLoading(true)`, POST `question.trim()`, then `onResults(data)` on
success or `alert(error.response?.data?.detail || 'Error processing your
question. Please try again.')` on failure, and finally
`onLoading(false)`. -/
def handleSubmit (question : String) (result : AskResult) : AskOutcome :=
  if trim question = "" then
    { requests := [], loadingCalls := [], resultsCalls := [], alerts := [] }
  else
    match result with
    | .ok data =>
        { requests := [trim question]
        , loadingCalls := [true, false]
        , resultsCalls := [data]
        , alerts := [] }
    | .err detail =>
        { requests := [trim question]
        , loadingCalls := [true, false]
        , resultsCalls := []
        , alerts :=
            [match detail with
             | some d =>
                 if d = "" then
                   "Error processing your question. Please try again."
                 else d
             | none => "Error processing your question. Please try again."] }

/-- The results value displayed after `handleSubmit`, starting from
`prev` (each `onResults` call overwrites `App`'s `results` state). -/
def displayedResults (prev : Option Results) (o : AskOutcome) :
    Option Results :=
  o.resultsCalls.foldl (fun _ d => some d) prev

/-- The loading flag after `handleSubmit`, starting from `prev` (each
`onLoading` call overwrites `App`'s `loading` state). -/
def finalLoading (prev : Bool) (o : AskOutcome) : Bool :=
  o.loadingCalls.foldl (fun _ b => b) prev

/-! ## ResultsDisplay: renderVectorContext, renderGraphContext,
renderAnswer -/

/-- JavaScript `x.toFixed(1)` over exact rationals: extract the sign,
then pick the integer `n` minimising the distance of `n / 10` to `|x|`,
ties resolved toward the larger `n`, and print `n` with one decimal
digit.  (The binary-float representation error of the actual `Number` is
idealised away; over the exact value this is ECMA-262's algorithm.) -/
def toFixed1 (x : ℚ) : String :=
  let sign := if x < 0 then "-" else ""
  let n := (Int.floor (10 * |x| + 1 / 2)).toNat
  sign ++ toString (n / 10) ++ "." ++ toString (n % 10)

/-- One rendered card of the Semantic Results tab. -/
structure RenderedPassage where
  relevance : String
  paperLabel : String
  passage : String
  showFullTextButton : Bool
deriving Repr, DecidableEq

/-- The card `renderVectorContext` builds for one entry:
`Relevance: {(result.similarity * 100).toFixed(1)}%`,
`Paper: {result.paper_id.slice(0, 8)}...`, the truncated passage text,
and the `Show full text` button exactly when `result.text.length > 400`. -/
def renderPassage (result : VectorEntry) : RenderedPassage :=
  { relevance := "Relevance: " ++ toFixed1 (result.similarity * 100) ++ "%"
  , paperLabel := "Paper: " ++ result.paper_id.take 8 ++ "..."
  , passage := truncateText result.text
  , showFullTextButton := result.text.length > 400 }

/-- The Semantic Results tab body:
`results.vector_context.map((result, index) => ...)`. -/
def renderVectorContext (results : Results) : List RenderedPassage :=
  results.vector_context.map renderPassage

/-- `renderGraphContext`'s `papers`:
`results.graph_context.filter(item => item.type === 'paper')`. -/
def papersOf (graph_context : List GraphEntry) : List GraphEntry :=
  graph_context.filter (fun item => item.type == "paper")

/-- `renderGraphContext`'s `relationships`:
`results.graph_context.filter(item => item.type === 'relationship')`. -/
def relationshipsOf (graph_context : List GraphEntry) : List GraphEntry :=
  graph_context.filter (fun item => item.type == "relationship")

/-- The connections listed under one paper card:
`relationships.filter(rel => rel.data.from === paper.data.id)`. -/
def connectionsOf (graph_context : List GraphEntry) (paper : GraphEntry) :
    List GraphEntry :=
  (relationshipsOf graph_context).filter
    (fun rel => rel.data.from_ == paper.data.id)

/-- One rendered paper card of the Knowledge Graph tab: the paper entry,
its connection entries, and whether the `No direct connections found`
message is shown (`relationships.filter(...).length === 0`). -/
structure PaperCard where
  paper : GraphEntry
  connections : List GraphEntry
  noConnectionsMessage : Bool
deriving Repr, DecidableEq

/-- The Knowledge Graph tab body: one card per element of `papers`, in
order. -/
def renderGraphContext (graph_context : List GraphEntry) : List PaperCard :=
  (papersOf graph_context).map
    (fun paper =>
      { paper := paper
      , connections := connectionsOf graph_context paper
      , noConnectionsMessage :=
          (connectionsOf graph_context paper).length == 0 })

/-- The `Analyzed ... research papers` count of the answer tab:
`results.graph_context.filter(item => item.type === 'paper').length`. -/
def answerPapersCount (results : Results) : Nat :=
  (results.graph_context.filter (fun item => item.type == "paper")).length

/-! ## StatsPanel -/

/-- What the status panel shows: the two static service indicators, the
last-upload block (shown when `uploadStatus?.type === 'success'`), and
the stats block (shown when `stats` is non-null): papers, chunks, and
`stats.vectorizer_fitted ? 'Trained' : 'Ready'`. -/
structure StatsPanelView where
  neo4jIndicator : String
  vectorEngineIndicator : String
  lastUpload : Option UploadStatus
  statsBlock : Option (Nat × Nat × String)
deriving Repr, DecidableEq

/-- The `StatsPanel` component as a function of its props. -/
def statsPanel (stats : Option Stats) (uploadStatus : Option UploadStatus) :
    StatsPanelView :=
  { neo4jIndicator := "Connected"
  , vectorEngineIndicator := "Ready"
  , lastUpload :=
      match uploadStatus with
      | some s => if s.type = "success" then some s else none
      | none => none
  , statsBlock :=
      stats.map
        (fun s =>
          (s.papers_processed, s.chunks_processed,
            if s.vectorizer_fitted then "Trained" else "Ready")) }

/-- Sample paper entry used for concrete evaluations. -/
def samplePaper : GraphEntry :=
  { type := "paper", data := { id := "p1", title := "T" } }

/-- Sample relationship entry, pointing out of `samplePaper`. -/
def sampleRel : GraphEntry :=
  { type := "relationship"
  , data := { from_ := "p1", to_ := "c1", type := "discusses" } }

/-! ## Theorems -/

/-- C3: for every vector-context entry, the passage text rendered in the
Semantic Results tab equals the original text when its length is at most
400 characters, and otherwise equals the first 400 characters followed by
`...`. -/
theorem truncateText_spec (t : String) :
    (t.length ≤ 400 → truncateText t = t) ∧
    (t.length > 400 → truncateText t = t.take 400 ++ "...") := by
  refine ⟨fun h => ?_, fun h => ?_⟩
  · unfold truncateText
    rw [if_neg]
    omega
  · unfold truncateText
    rw [if_pos h]

/-- Witness for C3 at the three-character text `abc`. -/
theorem truncateText_spec_witness :
    "abc".length ≤ 400 ∧ truncateText "abc" = "abc" :=
  ⟨by decide, (truncateText_spec "abc").1 (by decide)⟩

/-- C2: the submit control is enabled exactly when the last upload status
exists with type `success` and the trimmed question text is non-empty;
in every other state the form cannot submit. -/
theorem submitDisabled_spec (question : String)
    (uploadStatus : Option UploadStatus) :
    submitDisabled question uploadStatus = false ↔
      (∃ s, uploadStatus = some s ∧ s.type = "success") ∧
        trim question ≠ "" := by
  cases uploadStatus with
  | none => simp [submitDisabled]
  | some s =>
      simp only [submitDisabled, Bool.or_eq_false_iff, decide_eq_false_iff_not,
        bne_eq_false_iff_eq, Option.some.injEq]
      constructor
      · rintro ⟨hq, ht⟩
        exact ⟨⟨s, rfl, ht⟩, hq⟩
      · rintro ⟨⟨s', hs', ht⟩, hq⟩
        cases hs'
        exact ⟨hq, ht⟩

/-- Witness for C2: with a `success` status and a non-blank question the
button is enabled. -/
theorem submitDisabled_spec_witness :
    submitDisabled "What is this?"
      (some { type := "success", message := "m", details := "" }) = false :=
  (submitDisabled_spec "What is this?"
      (some { type := "success", message := "m", details := "" })).mpr
    ⟨⟨{ type := "success", message := "m", details := "" }, rfl, rfl⟩,
     by decide⟩

/-- C1: every `handleFileUpload` run reports status `loading` first; on a
successful POST it reports a `success` status whose message names the
returned title and whose details combine `chunks_processed` with the
comma-joined authors, then issues the `GET /stats` request and passes its
payload to `onStatsUpdate`; on a failed POST it reports an `error` status
and performs no stats traffic at all. -/
theorem handleFileUpload_spec (resp : UploadResponse)
    (statsResult : Except Unit Stats) (e : UploadError) :
    (handleFileUpload (.ok resp statsResult)).head? =
        some (.statusUpdate loadingStatus) ∧
    (handleFileUpload (.err e)).head? = some (.statusUpdate loadingStatus) ∧
    (successStatus resp).type = "success" ∧
    (successStatus resp).message = "Processed: " ++ resp.title ∧
    (successStatus resp).details =
        toString resp.chunks_processed ++ " chunks • "
          ++ String.intercalate ", " resp.authors ∧
    Event.statusUpdate (successStatus resp) ∈
        handleFileUpload (.ok resp statsResult) ∧
    Event.statsRequest ∈ handleFileUpload (.ok resp statsResult) ∧
    (∀ st, statsResult = .ok st →
        Event.statsUpdate st ∈ handleFileUpload (.ok resp statsResult)) ∧
    handleFileUpload (.err e) =
        [.statusUpdate loadingStatus, .statusUpdate (errorStatus e)] ∧
    (errorStatus e).type = "error" ∧
    (∀ st, Event.statsUpdate st ∉ handleFileUpload (.err e)) ∧
    Event.statsRequest ∉ handleFileUpload (.err e) := by
  refine ⟨rfl, rfl, rfl, rfl, rfl, ?_, ?_, ?_, rfl, rfl, ?_, ?_⟩
  · cases statsResult <;> simp [handleFileUpload]
  · cases statsResult <;> simp [handleFileUpload]
  · rintro st rfl
    simp [handleFileUpload]
  · intro st
    simp [handleFileUpload]
  · simp [handleFileUpload]

/-- Witness for C1: a concrete successful upload with a successful stats
fetch delivers the stats payload to `onStatsUpdate`. -/
theorem handleFileUpload_spec_witness :
    Event.statsUpdate
        { papers_processed := 1, chunks_processed := 2,
          vectorizer_fitted := true } ∈
      handleFileUpload
        (.ok { title := "T", chunks_processed := 2, authors := ["A"] }
          (.ok { papers_processed := 1, chunks_processed := 2,
                 vectorizer_fitted := true })) :=
  (handleFileUpload_spec
      { title := "T", chunks_processed := 2, authors := ["A"] }
      (.ok { papers_processed := 1, chunks_processed := 2,
             vectorizer_fitted := true })
      { detail := none, status := none }).2.2.2.2.2.2.2.1 _ rfl

/-- C4: a dropped or picked file reaches `handleFileUpload` exactly when
the first file of the list has MIME type `application/pdf`; later files
of a drop are ignored; a non-PDF first file or an empty list produces no
request and leaves the upload status unchanged. -/
theorem fileHandlers_spec (f g : DOMFile) (rest files : List DOMFile)
    (result : UploadResult) (prev : Option UploadStatus) :
    handleDrop (f :: rest) = handleDrop [f] ∧
    handleDrop ([] : List DOMFile) = none ∧
    handleFileSelect files = handleDrop files ∧
    (handleDrop files = some g →
      files.head? = some g ∧ g.type = "application/pdf") ∧
    (files.head? = some g → g.type = "application/pdf" →
      handleDrop files = some g) ∧
    (handleDrop files = none →
      dropEvents files result = [] ∧ selectEvents files result = [] ∧
      lastStatus prev (dropEvents files result) = prev) := by
  refine ⟨?_, rfl, ?_, ?_, ?_, ?_⟩
  · by_cases h : f.type = "application/pdf" <;> simp [handleDrop, h]
  · cases files with
    | nil => rfl
    | cons f rest => rfl
  · cases files with
    | nil => simp [handleDrop]
    | cons f rest =>
        by_cases h : f.type = "application/pdf"
        · intro hg
          simp only [handleDrop, if_pos h, Option.some.injEq] at hg
          subst hg
          exact ⟨rfl, h⟩
        · simp [handleDrop, h]
  · cases files with
    | nil => simp
    | cons f rest =>
        rintro h hpdf
        obtain rfl : f = g := by simpa using h
        simp [handleDrop, hpdf]
  · intro h
    refine ⟨?_, ?_, ?_⟩
    · simp [dropEvents, h]
    · cases files with
      | nil => simp [selectEvents, handleFileSelect]
      | cons f rest =>
          simp only [handleDrop] at h
          simp [selectEvents, handleFileSelect, h]
    · simp [dropEvents, h, lastStatus]

/-- Witness for C4: a dropped text file produces no effects. -/
theorem fileHandlers_spec_witness :
    dropEvents [{ name := "notes.txt", type := "text/plain" }]
      (.err { detail := none, status := none }) = [] ∧
    lastStatus (some loadingStatus)
      (dropEvents [{ name := "notes.txt", type := "text/plain" }]
        (.err { detail := none, status := none })) = some loadingStatus := by
  have h :=
    (fileHandlers_spec { name := "notes.txt", type := "text/plain" }
      { name := "notes.txt", type := "text/plain" } []
      [{ name := "notes.txt", type := "text/plain" }]
      (.err { detail := none, status := none })
      (some loadingStatus)).2.2.2.2.2 (by decide)
  exact ⟨h.1, h.2.2⟩

/-- C6, counterexample: at an error whose response carries
`detail: ""` and `status: 0`, both fields are present, yet the message
shown is not the detail field (the `||` fallback fires on the falsy empty
string) and the details do not carry the status code (the ternary guard
fires on the falsy `0`). -/
theorem errorStatus_claim_false :
    (errorStatus { detail := some "", status := some 0 }).message ≠ "" ∧
    (errorStatus { detail := some "", status := some 0 }).details ≠
      "Status: 0" := by
  refine ⟨?_, ?_⟩ <;> decide

/-- C6, amended: the error message equals the backend's `detail` field
when that field is present and non-empty and otherwise equals
`Upload failed. Please try again.`; the details carry the HTTP status
code when one is present and non-zero and are empty otherwise. -/
theorem errorStatus_amended_spec (e : UploadError) (d : String) (n : Nat) :
    (errorStatus e).type = "error" ∧
    (e.detail = some d → d ≠ "" → (errorStatus e).message = d) ∧
    ((e.detail = none ∨ e.detail = some "") →
      (errorStatus e).message = "Upload failed. Please try again.") ∧
    (e.status = some n → n ≠ 0 →
      (errorStatus e).details = "Status: " ++ toString n) ∧
    ((e.status = none ∨ e.status = some 0) →
      (errorStatus e).details = "") := by
  refine ⟨rfl, ?_, ?_, ?_, ?_⟩
  · rintro h hd
    simp [errorStatus, h, hd]
  · rintro (h | h) <;> simp [errorStatus, h]
  · rintro h hn
    simp [errorStatus, h, hn]
  · rintro (h | h) <;> simp [errorStatus, h]

/-- Witness for the amended C6 at a concrete error with detail `boom`
and status `422`. -/
theorem errorStatus_amended_spec_witness :
    (errorStatus { detail := some "boom", status := some 422 }).message =
        "boom" ∧
    (errorStatus { detail := some "boom", status := some 422 }).details =
        "Status: " ++ toString 422 := by
  have h :=
    errorStatus_amended_spec { detail := some "boom", status := some 422 }
      "boom" 422
  exact ⟨h.2.1 rfl (by decide), h.2.2.2.1 rfl (by decide)⟩

/-- C9: when the `POST /ask` rejects, `onResults` is never called and the
previously displayed results stay; whenever a request is sent, the
loading flag ends up `false` again; a question that is blank after
trimming sends nothing at all; and the question actually posted is always
the trimmed text. -/
theorem handleSubmit_spec (question : String) (result : AskResult)
    (detail : Option String) (prev : Option Results) (prevLoading : Bool) :
    (handleSubmit question (.err detail)).resultsCalls = [] ∧
    displayedResults prev (handleSubmit question (.err detail)) = prev ∧
    (trim question ≠ "" →
      (handleSubmit question result).loadingCalls = [true, false] ∧
      finalLoading prevLoading (handleSubmit question result) = false) ∧
    (trim question = "" →
      handleSubmit question result =
        { requests := [], loadingCalls := [], resultsCalls := [],
          alerts := [] }) ∧
    (∀ r ∈ (handleSubmit question result).requests, r = trim question) := by
  refine ⟨?_, ?_, ?_, ?_, ?_⟩
  · by_cases h : trim question = "" <;> simp [handleSubmit, h]
  · by_cases h : trim question = "" <;>
      simp [handleSubmit, h, displayedResults]
  · intro h
    cases result <;> simp [handleSubmit, h, finalLoading]
  · intro h
    cases result <;> simp [handleSubmit, h]
  · intro r hr
    by_cases h : trim question = ""
    · simp [handleSubmit, h] at hr
    · cases result <;> simp [handleSubmit, h] at hr <;> exact hr

/-- Witness for C9: a concrete failing request around the question
` q ` leaves previous results in place and resets loading. -/
theorem handleSubmit_spec_witness :
    displayedResults
        (some { answer := "old", vector_context := [], graph_context := [] })
        (handleSubmit " q " (.err (some "boom"))) =
      some { answer := "old", vector_context := [], graph_context := [] } ∧
    finalLoading true (handleSubmit " q " (.err (some "boom"))) = false := by
  have h :=
    handleSubmit_spec " q " (.err (some "boom")) (some "boom")
      (some { answer := "old", vector_context := [], graph_context := [] })
      true
  exact ⟨h.2.1, (h.2.2.1 (by decide)).2⟩

/-- C10: when the stats fetch after a successful upload rejects, the
`GET /stats` request was issued, but `onStatsUpdate` is never called, the
displayed stats value stays what it was, and the upload status remains
the `success` status already set. -/
theorem statsFetchFailure_spec (resp : UploadResponse)
    (prevStats : Option Stats) (prevStatus : Option UploadStatus) :
    Event.statsRequest ∈ handleFileUpload (.ok resp (.error ())) ∧
    lastStatus prevStatus (handleFileUpload (.ok resp (.error ()))) =
        some (successStatus resp) ∧
    (successStatus resp).type = "success" ∧
    (∀ st, Event.statsUpdate st ∉ handleFileUpload (.ok resp (.error ()))) ∧
    lastStats prevStats (handleFileUpload (.ok resp (.error ()))) =
        prevStats := by
  refine ⟨?_, ?_, rfl, ?_, ?_⟩
  · simp [handleFileUpload]
  · simp [handleFileUpload, lastStatus]
  · intro st
    simp [handleFileUpload]
  · simp [handleFileUpload, lastStats]

/-- Witness for C10: the no-`onStatsUpdate` part at a concrete upload. -/
theorem statsFetchFailure_spec_witness :
    Event.statsUpdate
        { papers_processed := 9, chunks_processed := 9,
          vectorizer_fitted := false } ∉
      handleFileUpload
        (.ok { title := "T", chunks_processed := 1, authors := [] }
          (.error ())) :=
  (statsFetchFailure_spec
      { title := "T", chunks_processed := 1, authors := [] }
      none none).2.2.2.1
    { papers_processed := 9, chunks_processed := 9,
      vectorizer_fitted := false }

/-- C5: the Knowledge Graph tab lists exactly the `graph_context` entries
of type `paper`, in order; under each paper the connections shown are
exactly the entries of type `relationship` whose `data.from` equals that
paper's `data.id`, with the `No direct connections found` message shown
exactly when there are none; and the answer tab's research-papers count
equals the number of `paper` entries. -/
theorem graphTab_spec (g : List GraphEntry) (p r : GraphEntry)
    (results : Results) :
    (renderGraphContext g).map PaperCard.paper = papersOf g ∧
    (p ∈ papersOf g ↔ p ∈ g ∧ p.type = "paper") ∧
    (r ∈ connectionsOf g p ↔
      r ∈ g ∧ r.type = "relationship" ∧ r.data.from_ = p.data.id) ∧
    (∀ card ∈ renderGraphContext g,
      card.connections = connectionsOf g card.paper ∧
      (card.noConnectionsMessage = true ↔ card.connections = [])) ∧
    answerPapersCount results = (papersOf results.graph_context).length := by
  refine ⟨?_, ?_, ?_, ?_, rfl⟩
  · simp [renderGraphContext, List.map_map, Function.comp_def]
  · simp [papersOf, List.mem_filter]
  · simp only [connectionsOf, relationshipsOf, List.mem_filter,
      beq_iff_eq]
    tauto
  · intro card hcard
    simp only [renderGraphContext, List.mem_map] at hcard
    obtain ⟨paper, hpaper, rfl⟩ := hcard
    refine ⟨rfl, ?_⟩
    simp [List.length_eq_zero]

/-- Witness for C5: a one-paper, one-relationship payload where the
relationship's `from` matches the paper's id. -/
theorem graphTab_spec_witness :
    sampleRel ∈ connectionsOf [samplePaper, sampleRel] samplePaper :=
  (graphTab_spec [samplePaper, sampleRel] samplePaper sampleRel
      { answer := "", vector_context := [], graph_context := [] }).2.2.1.mpr
    ⟨by simp, rfl, rfl⟩

/-- C7: the Semantic Results tab renders one card per `vector_context`
entry, in payload order, with no re-ranking or filtering; each card shows
the similarity as a percentage via `toFixed(1)` and the first 8
characters of the `paper_id`; and for a non-negative value `toFixed(1)`
prints one decimal digit, denoting the multiple of one tenth within
`1/20` of the value. -/
theorem vectorTab_spec (results : Results) (e : VectorEntry) (i : Nat)
    (q : ℚ) :
    (renderVectorContext results).length =
        results.vector_context.length ∧
    (renderVectorContext results)[i]? =
        (results.vector_context[i]?).map renderPassage ∧
    (renderPassage e).relevance =
        "Relevance: " ++ toFixed1 (e.similarity * 100) ++ "%" ∧
    (renderPassage e).paperLabel =
        "Paper: " ++ e.paper_id.take 8 ++ "..." ∧
    (0 ≤ q → ∃ n : ℕ,
      toFixed1 q = toString (n / 10) ++ "." ++ toString (n % 10) ∧
      |q - (n : ℚ) / 10| ≤ 1 / 20) := by
  refine ⟨?_, ?_, rfl, rfl, ?_⟩
  · simp [renderVectorContext]
  · simp [renderVectorContext]
  · intro hq
    refine ⟨(Int.floor (10 * q + 1 / 2)).toNat, ?_, ?_⟩
    · unfold toFixed1
      rw [if_neg (not_lt.mpr hq), abs_of_nonneg hq]
      simp
    · have h0 : (0 : ℚ) ≤ 10 * q + 1 / 2 := by linarith
      have hm0 : 0 ≤ Int.floor (10 * q + 1 / 2) :=
        Int.floor_nonneg.mpr h0
      have hcast :
          ((Int.floor (10 * q + 1 / 2)).toNat : ℚ) =
            ((Int.floor (10 * q + 1 / 2) : ℤ) : ℚ) := by
        exact_mod_cast Int.toNat_of_nonneg hm0
      have h1 : ((Int.floor (10 * q + 1 / 2) : ℤ) : ℚ) ≤ 10 * q + 1 / 2 :=
        Int.floor_le _
      have h2 : 10 * q + 1 / 2 - 1 <
          ((Int.floor (10 * q + 1 / 2) : ℤ) : ℚ) :=
        Int.sub_one_lt_floor _
      rw [hcast, abs_le]
      constructor <;> linarith

/-- Witness for C7: the decimal-rendering clause at the exact percentage
value `87.25`. -/
theorem vectorTab_spec_witness :
    (0 : ℚ) ≤ 349 / 4 ∧ ∃ n : ℕ,
      toFixed1 (349 / 4) =
          toString (n / 10) ++ "." ++ toString (n % 10) ∧
      |(349 / 4 : ℚ) - (n : ℚ) / 10| ≤ 1 / 20 :=
  ⟨by norm_num,
   (vectorTab_spec
       { answer := "", vector_context := [], graph_context := [] }
       { paper_id := "", text := "", similarity := 0 } 0
       (349 / 4)).2.2.2.2 (by norm_num)⟩

/-- C8: for any non-null stats value the panel displays
`papers_processed` and `chunks_processed` unchanged and renders the
vectorizer as `Trained` exactly when `vectorizer_fitted` is true and as
`Ready` when it is false; the `Connected` and `Ready` service indicators
are constant, independent of the stats (and upload-status) props. -/
theorem statsPanel_spec (s : Stats) (stats stats' : Option Stats)
    (us us' : Option UploadStatus) :
    (statsPanel (some s) us).statsBlock =
        some (s.papers_processed, s.chunks_processed,
          if s.vectorizer_fitted then "Trained" else "Ready") ∧
    (s.vectorizer_fitted = true →
      (statsPanel (some s) us).statsBlock =
        some (s.papers_processed, s.chunks_processed, "Trained")) ∧
    (s.vectorizer_fitted = false →
      (statsPanel (some s) us).statsBlock =
        some (s.papers_processed, s.chunks_processed, "Ready")) ∧
    (statsPanel stats us).neo4jIndicator = "Connected" ∧
    (statsPanel stats us).vectorEngineIndicator = "Ready" ∧
    (statsPanel stats us).neo4jIndicator =
        (statsPanel stats' us').neo4jIndicator ∧
    (statsPanel stats us).vectorEngineIndicator =
        (statsPanel stats' us').vectorEngineIndicator := by
  refine ⟨rfl, ?_, ?_, rfl, rfl, rfl, rfl⟩
  · intro h
    simp [statsPanel, h]
  · intro h
    simp [statsPanel, h]

/-- Witness for C8 at concrete stats with a fitted vectorizer. -/
theorem statsPanel_spec_witness :
    (statsPanel
        (some { papers_processed := 3, chunks_processed := 7,
                vectorizer_fitted := true }) none).statsBlock =
      some (3, 7, "Trained") :=
  (statsPanel_spec
      { papers_processed := 3, chunks_processed := 7,
        vectorizer_fitted := true }
      none none none none).2.1 rfl

end GraphRag
